import Mathlib

/-!
Verification of the Prism manga-reader pipeline.

The repository turns an uploaded PDF into a manga strip: a Document
Extractor produces text, a Storyboard Planner produces panels, a Panel
Render Batcher renders them in dialogue-length-sized batches, and a
Composer sorts the rendered panels by `panel_number` and stitches them
together.  The browser client keeps its state in a zustand store and
reads progress by polling.

Frontend code (the zustand store, `Dropzone`, `GenerationProgress`,
`MangaReader`, `SettingsPanel`, the `Home` page with `handleGenerate`)
is embedded directly from the TypeScript sources.  The Python backend
services (`pdf_parser.py`, `storyboarder.py`, `manga_generator.py`, the
FastAPI routes) are not part of the source tree available here; where a
definition stands in for them it is modelled from the specification and
its doc comment says so.

JavaScript strings are modelled as lists of characters, so that
`slice(0, 500)` becomes `List.take 500` and JavaScript truthiness of a
string is non-emptiness.
-/

namespace Prism

/-- JavaScript strings, modelled as lists of characters. -/
abbrev JStr := List Char

/-- One storyboard panel: `panel_number`, `panel_type`, and dialogue as a
speaker-keyed mapping (spec section 3; frontend `MangaPanel` shape). -/
structure Panel where
  panel_number : Nat
  panel_type : JStr
  dialogue : List (JStr × JStr)
deriving DecidableEq

/-- Total dialogue character count of one panel. -/
def Panel.dialogueChars (p : Panel) : Nat :=
  (p.dialogue.map (fun kv => kv.2.length)).sum

/-- Total dialogue character count of a candidate batch. -/
def batchChars (ps : List Panel) : Nat :=
  (ps.map Panel.dialogueChars).sum

/-- Modelled from the spec: the backend batch-sizing policy of
`manga_generator.py` (absent from the source tree), as stated in spec
section 4.3 and in the README section Dynamic Batch Sizing: dialogue
count above 200 gives batch size 1, above 100 gives 2, otherwise 4. -/
def mangaBatchSize (c : Nat) : Nat :=
  if c > 200 then 1 else if c > 100 then 2 else 4

/-- Modelled from the spec: the Batcher (spec section 4.3) partitions
the storyboard into contiguous batches, recomputing the size per batch
from the dialogue count of the panels about to be included (the next up
to four panels, four being the largest batch). -/
def makeBatches (ps : List Panel) : List (List Panel) :=
  if h : ps = [] then []
  else
    ps.take (mangaBatchSize (batchChars (ps.take 4))) ::
      makeBatches (ps.drop (mangaBatchSize (batchChars (ps.take 4))))
termination_by ps.length
decreasing_by
  have h1 : 1 ≤ mangaBatchSize (batchChars (ps.take 4)) := by
    unfold mangaBatchSize
    split
    · omega
    · split <;> omega
  have h2 : 0 < ps.length := List.length_pos.mpr h
  simp only [List.length_drop]
  omega

/-- One rendered panel: `panel_number`, PNG image bytes as base64, and
the originating dialogue (spec section 3; frontend `MangaPanel`). -/
structure RenderedPanel where
  panel_number : Nat
  image_base64 : JStr
  dialogue : List (JStr × JStr)
deriving DecidableEq

/-- The terminal Manga artifact: title, panels sorted by `panel_number`,
and the combined strip image (spec section 3; frontend `MangaResponse`). -/
structure Manga where
  title : JStr
  panels : List RenderedPanel
  combined_image_base64 : JStr
deriving DecidableEq

/-- Error taxonomy of the generation pipeline (spec section 7). -/
inductive MangaError where
  | renderError (panel_numbers : List Nat)
  | compositionError
deriving DecidableEq

/-- Rendering one panel keeps its `panel_number` and dialogue; the image
produced by the model is abstracted as a function of the panel. -/
def renderPanel (img : Panel → JStr) (p : Panel) : RenderedPanel :=
  ⟨p.panel_number, img p, p.dialogue⟩

/-- Ordering of rendered panels by their `panel_number` key. -/
def panelLE (a b : RenderedPanel) : Prop :=
  a.panel_number ≤ b.panel_number

/-- Strict ordering of rendered panels by their `panel_number` key. -/
def panelLT (a b : RenderedPanel) : Prop :=
  a.panel_number < b.panel_number

instance : DecidableRel panelLE :=
  fun a b => Nat.decLe a.panel_number b.panel_number

instance : IsTotal RenderedPanel panelLE :=
  ⟨fun a b => Nat.le_total a.panel_number b.panel_number⟩

instance : IsTrans RenderedPanel panelLE :=
  ⟨fun _ _ _ => Nat.le_trans⟩

instance : IsAntisymm RenderedPanel panelLT :=
  ⟨fun _ _ h h2 => absurd h2 (Nat.lt_asymm h)⟩

/-- Modelled from the spec: the Composer's re-sort of rendered panels by
`panel_number` (spec sections 4.4 and 9; the backend sorting code of
`manga_generator.py` is absent from the source tree). -/
def sortPanels (rs : List RenderedPanel) : List RenderedPanel :=
  rs.insertionSort panelLE

/-- Modelled from the spec: the Composer (spec section 4.4, absent
backend).  It sorts the rendered panels by `panel_number`, checks that
the panel numbers are exactly the contiguous range `1..N`, fails with
`CompositionError` otherwise, and stitches the images into the combined
strip. -/
def composeManga (title : JStr) (rs : List RenderedPanel) : Except MangaError Manga :=
  if (sortPanels rs).map RenderedPanel.panel_number = List.range' 1 rs.length then
    Except.ok ⟨title, sortPanels rs, ((sortPanels rs).map RenderedPanel.image_base64).flatten⟩
  else
    Except.error MangaError.compositionError

/-- Modelled from the spec: one render batch call with its retry (spec
section 4.3, absent backend).  `ok b a` says whether the image model
call on batch `b`, attempt `a`, succeeds.  The result records the calls
issued (batch passed and attempt index) and either the rendered panels
or `RenderError` carrying the failing panel numbers after two failures. -/
def renderBatch (ok : List Panel → Nat → Bool) (img : Panel → JStr) (b : List Panel) :
    List (List Panel × Nat) × Except MangaError (List RenderedPanel) :=
  if ok b 0 then ([(b, 0)], Except.ok (b.map (renderPanel img)))
  else if ok b 1 then ([(b, 0), (b, 1)], Except.ok (b.map (renderPanel img)))
  else ([(b, 0), (b, 1)], Except.error (MangaError.renderError (b.map Panel.panel_number)))

/-- Modelled from the spec: sequential rendering of all batches (spec
sections 4.3 and 5, absent backend).  Batches are processed strictly in
order; the first batch that fails twice aborts the run, discarding every
partial result.  The call log of every image-model call is returned
alongside the outcome. -/
def renderAll (ok : List Panel → Nat → Bool) (img : Panel → JStr) :
    List (List Panel) → List (List Panel × Nat) × Except MangaError (List RenderedPanel)
  | [] => ([], Except.ok [])
  | b :: rest =>
    match renderBatch ok img b with
    | (log, Except.error e) => (log, Except.error e)
    | (log, Except.ok rps) =>
      match renderAll ok img rest with
      | (log2, Except.error e) => (log ++ log2, Except.error e)
      | (log2, Except.ok more) => (log ++ log2, Except.ok (rps ++ more))

/-- Modelled from the spec: the whole render-then-compose stage (spec
sections 4.3 and 4.4, absent backend).  A render failure propagates and
no Manga artifact is produced. -/
def generateFromBatches (ok : List Panel → Nat → Bool) (img : Panel → JStr)
    (title : JStr) (batches : List (List Panel)) : Except MangaError Manga :=
  match (renderAll ok img batches).2 with
  | Except.error e => Except.error e
  | Except.ok rps => composeManga title rps

/-- Stage field of the backend progress record (spec section 3). -/
inductive ProgressStage where
  | idle
  | generating
  | completed
  | error
deriving DecidableEq

/-- The backend progress record polled by the client (spec section 3;
frontend `GenerationProgress.pollProgress` reads these fields). -/
structure ProgressState where
  stage : ProgressStage
  current_panel : Nat
  total_panels : Nat
  message : JStr
deriving DecidableEq

/-- Sizes of the render batches of a storyboard. -/
def batchSizes (ps : List Panel) : List Nat :=
  (makeBatches ps).map List.length

/-- Panels completed after the first `k` batches. -/
def panelsDone (ps : List Panel) (k : Nat) : Nat :=
  ((batchSizes ps).take k).sum

/-- Modelled from the spec: the Progress Tracker (spec sections 3, 4.3
and 4.5, absent backend).  It is reset to zero of the total at the start
of the run, advanced by the batch size after each batch call, and set to
completed at the end; `progressAt ps t` is the record a poll arriving
after `t` batch completions observes. -/
def progressAt (ps : List Panel) (t : Nat) : ProgressState :=
  if t ≤ (batchSizes ps).length then
    ⟨ProgressStage.generating, panelsDone ps t, ps.length, ("Drawing").data⟩
  else
    ⟨ProgressStage.completed, ps.length, ps.length, ("Done").data⟩

/-- Failure of the Document Extractor (spec sections 4.1 and 7). -/
inductive ExtractionFailure where
  | extractionFailure
deriving DecidableEq

/-- Shape of the Upload endpoint response (spec section 6; the client
`Dropzone` reads `full_text` and `text_preview`, the latter possibly
absent or empty). -/
structure UploadResponse where
  full_text : JStr
  text_preview : Option JStr
deriving DecidableEq

/-- A PDF document as the Extractor sees it: validity, and the text
layer when one exists. -/
structure PDFDocument where
  valid : Bool
  textLayer : Option JStr
deriving DecidableEq

/-- The document is a valid PDF with an extractable text layer. -/
def hasTextLayer (d : PDFDocument) : Prop :=
  d.valid = true ∧ ∃ t, d.textLayer = some t ∧ t ≠ []

/-- Modelled from the spec: the Document Extractor (spec section 4.1;
`pdf_parser.py` is absent from the source tree).  A valid PDF with a
text layer yields the full text and a preview of its first 500
characters; otherwise extraction fails. -/
def extractPDF (d : PDFDocument) : Except ExtractionFailure UploadResponse :=
  match d.textLayer with
  | some t =>
    if d.valid && !t.isEmpty then
      Except.ok ⟨t, some (t.take 500)⟩
    else
      Except.error ExtractionFailure.extractionFailure
  | none => Except.error ExtractionFailure.extractionFailure

/-- JavaScript `x || y` on an optional string: the left operand wins
exactly when it is present and non-empty (truthy). -/
def jsOr (s : Option JStr) (dflt : JStr) : JStr :=
  match s with
  | some v => if v = [] then dflt else v
  | none => dflt

/-- JavaScript truthiness of a nullable string. -/
def optTruthy (e : Option JStr) : Bool :=
  match e with
  | some m => !m.isEmpty
  | none => false

/-- The preview computed by `Dropzone.onDrop`:
`result.text_preview || fullText.slice(0, 500) + "..."`. -/
def dropzonePreview (r : UploadResponse) : JStr :=
  jsOr r.text_preview (r.full_text.take 500 ++ ("...").data)

/-- One provider entry as the backend config holds it, secret credential
value included. -/
structure BackendProvider where
  name : JStr
  models : List JStr
  api_key : Option JStr
  enabled : Bool
deriving DecidableEq

/-- One provider entry of the Config endpoint response: the fields the
`SettingsPanel` consumes (`name`, `models`, `has_api_key`, `enabled`). -/
structure ProviderInfo where
  name : JStr
  models : List JStr
  has_api_key : Bool
  enabled : Bool
deriving DecidableEq

/-- The Config endpoint response consumed by the client. -/
structure ConfigResponse where
  providers : List ProviderInfo
deriving DecidableEq

/-- Modelled from the spec: what the Config endpoint exposes for one
provider (spec section 6; the FastAPI route is absent from the source
tree): name, model list, whether a credential is present, and the
enabled flag — never the credential value itself. -/
def exposeProvider (p : BackendProvider) : ProviderInfo :=
  ⟨p.name, p.models, p.api_key.isSome, p.enabled⟩

/-- Modelled from the spec: the Config endpoint (spec section 6, absent
backend). -/
def configEndpoint (cfg : List BackendProvider) : ConfigResponse :=
  ⟨cfg.map exposeProvider⟩

/-- Replace the secret credential of a provider by the image of `f`. -/
def rekeyProvider (f : Option JStr → Option JStr) (p : BackendProvider) : BackendProvider :=
  { p with api_key := f p.api_key }

/-- Client application stage (`AppStage` of the zustand store). -/
inductive AppStage where
  | idle
  | uploading
  | parsing
  | generatingStoryboard
  | generatingManga
  | completed
  | error
deriving DecidableEq

/-- Manga theme choice of the store. -/
inductive MangaTheme where
  | chiikawa
  | ghibli
deriving DecidableEq

/-- Output language choice of the store. -/
inductive Language where
  | enUS
  | zhCN
  | jaJP
deriving DecidableEq

/-- A storyboard as returned by the Planner endpoint. -/
structure StoryboardResponse where
  title : JStr
  panels : List Panel
deriving DecidableEq

/-- The data fields of the zustand application store (`app-store.ts`). -/
structure AppState where
  stage : AppStage
  error : Option JStr
  file : Option JStr
  extractedText : JStr
  textPreview : JStr
  mangaTheme : MangaTheme
  numPanels : Nat
  language : Language
  title : JStr
  storyboard : Option StoryboardResponse
  manga : Option Manga
  isSettingsOpen : Bool
deriving DecidableEq

/-- The store's `initialState` object. -/
def initialState : AppState :=
  { stage := AppStage.idle
    error := none
    file := none
    extractedText := []
    textPreview := []
    mangaTheme := MangaTheme.chiikawa
    numPanels := 6
    language := Language.enUS
    title := []
    storyboard := none
    manga := none
    isSettingsOpen := false }

/-- Store action `setStage`. -/
def setStage (st : AppStage) (s : AppState) : AppState :=
  { s with stage := st }

/-- Store action `setError`:
`set({ error, stage: error ? "error" : "idle" })` — the stage follows
JavaScript truthiness of the message. -/
def setError (e : Option JStr) (s : AppState) : AppState :=
  { s with error := e
           stage := if optTruthy e then AppStage.error else AppStage.idle }

/-- Store action `setExtractedText`:
`set({ extractedText: text, textPreview: preview || text.slice(0, 500) })`. -/
def setExtractedText (text : JStr) (preview : Option JStr) (s : AppState) : AppState :=
  { s with extractedText := text
           textPreview := jsOr preview (text.take 500) }

/-- Store action `setStoryboard`. -/
def setStoryboard (v : Option StoryboardResponse) (s : AppState) : AppState :=
  { s with storyboard := v }

/-- Store action `setManga`. -/
def setManga (v : Option Manga) (s : AppState) : AppState :=
  { s with manga := v }

/-- Store action `reset`: `set(initialState)` — every data field of the
store is overwritten with its initial value. -/
def reset (_ : AppState) : AppState :=
  initialState

/-- A JavaScript exception as `handleGenerate` sees it: `some m` is an
`Error` whose `message` is `m`; `none` is any non-`Error` thrown value. -/
def thrownMessage (t : Option JStr) : JStr :=
  match t with
  | some m => m
  | none => ("Generation failed, please try again").data

/-- The `handleGenerate` handler of the Home page, embedded from
`part_003`.  The two awaited API calls are abstracted as their
outcomes: a result or a thrown value.  The second call happens only
when the first one succeeded, as in the original `try` block. -/
def handleGenerate (s : AppState) (sbR : Except (Option JStr) StoryboardResponse)
    (mgR : Except (Option JStr) Manga) : AppState :=
  if s.extractedText = [] then
    setError (some ("Please upload a PDF file first").data) s
  else
    let s1 := setStage AppStage.generatingStoryboard s
    match sbR with
    | Except.error t => setError (some (thrownMessage t)) s1
    | Except.ok sb =>
      let s2 := setStage AppStage.generatingManga (setStoryboard (some sb) s1)
      match mgR with
      | Except.error t => setError (some (thrownMessage t)) s2
      | Except.ok m => setStage AppStage.completed (setManga (some m) s2)

/-- Direction argument of `MangaReader.navigatePanel`. -/
inductive NavDirection where
  | prev
  | next
deriving DecidableEq

/-- `MangaReader.navigatePanel`, embedded from `MangaReader.tsx`: a
no-op when no panel is selected, otherwise clamped decrement or
increment, with `manga.panels.length` as the upper bound. -/
def navigatePanel (panelCount : Int) (selected : Option Int) (d : NavDirection) : Option Int :=
  match selected with
  | none => none
  | some p =>
    match d with
    | NavDirection.prev => some (max 1 (p - 1))
    | NavDirection.next => some (min panelCount (p + 1))

/-- A six-panel storyboard used as a concrete witness input. -/
def demoPanels6 : List Panel :=
  [⟨1, [], []⟩, ⟨2, [], []⟩, ⟨3, [], []⟩, ⟨4, [], []⟩, ⟨5, [], []⟩, ⟨6, [], []⟩]

/-- Two rendered panels arriving out of order, as a witness input. -/
def demoRendered : List RenderedPanel :=
  [⟨2, ['b'], []⟩, ⟨1, ['a'], []⟩]

/-- The Manga obtained by composing `demoRendered`. -/
def demoComposedManga : Manga :=
  ⟨[], [⟨1, ['a'], []⟩, ⟨2, ['b'], []⟩], ['a', 'b']⟩

/-- A render batch that succeeds, as a witness input. -/
def demoPanelA : Panel := ⟨1, [], []⟩

/-- A render batch whose image call always fails, as a witness input. -/
def demoPanelB : Panel := ⟨2, [], []⟩

/-- A call oracle under which only the batch `[demoPanelB]` fails. -/
def demoOk : List Panel → Nat → Bool :=
  fun bs _ => decide (bs ≠ [demoPanelB])

/-- A constant image function used as a witness input. -/
def demoImg : Panel → JStr :=
  fun _ => ['i']

/-- A valid PDF document carrying a text layer, as a witness input. -/
def demoPDF : PDFDocument :=
  ⟨true, some (("hello").data)⟩

/-- A backend configuration with one configured and one unconfigured
provider, as a witness input. -/
def demoCfg : List BackendProvider :=
  [⟨("openrouter").data, [("gemini").data], some (("topsecret").data), true⟩,
   ⟨("google").data, [], none, false⟩]

/-- A credential rewriting that keeps presence but changes every value. -/
def demoRekey : Option JStr → Option JStr :=
  fun o => o.map (fun _ => ['x'])

/-- An application state which already holds extracted text. -/
def demoReadyState : AppState :=
  { initialState with extractedText := ['x'] }

/-- A storyboard result used as a witness input. -/
def demoStoryboardR : StoryboardResponse :=
  ⟨[], [⟨1, [], []⟩]⟩

/-- A manga result used as a witness input. -/
def demoMangaR : Manga :=
  ⟨[], [], []⟩

/-- C2: the batch-sizing function maps the total dialogue character
count `c` of a candidate batch to batch size 1 when `c > 200`, to 2 when
`100 < c ≤ 200`, and to 4 otherwise. -/
theorem mangaBatchSize_policy (c : Nat) :
    (200 < c → mangaBatchSize c = 1)
    ∧ (100 < c → c ≤ 200 → mangaBatchSize c = 2)
    ∧ (c ≤ 100 → mangaBatchSize c = 4) := by
  refine ⟨fun h => ?_, fun h1 h2 => ?_, fun h => ?_⟩ <;>
    unfold mangaBatchSize <;> split_ifs <;> omega

/-- Witness for C2: the three regimes of the batch-sizing policy at the
concrete counts 250, 150 and 80. -/
theorem mangaBatchSize_policy_witness :
    mangaBatchSize 250 = 1 ∧ mangaBatchSize 150 = 2 ∧ mangaBatchSize 80 = 4 :=
  ⟨(mangaBatchSize_policy 250).1 (by decide),
   (mangaBatchSize_policy 150).2.1 (by decide) (by decide),
   (mangaBatchSize_policy 80).2.2 (by decide)⟩

/-- C6: `reset` returns exactly the store's initial state, so after
`reset` the manga, storyboard and error are null and the stage is idle,
whatever the prior state was. -/
theorem reset_restores_initial (s : AppState) :
    reset s = initialState
    ∧ (reset s).manga = none
    ∧ (reset s).storyboard = none
    ∧ (reset s).error = none
    ∧ (reset s).stage = AppStage.idle :=
  ⟨rfl, rfl, rfl, rfl, rfl⟩

/-- Counterexample for C9: `setError` follows JavaScript truthiness, not
null-ness.  The empty string is non-null, yet `setError(some "")` sets
the stage to idle, not to error, refuting the claim that the stage
becomes error exactly when the argument is non-null. -/
theorem setError_empty_string_cex :
    (setError (some ([] : JStr)) initialState).stage = AppStage.idle
    ∧ some ([] : JStr) ≠ (none : Option JStr) :=
  ⟨rfl, by decide⟩

/-- C9 amended: `setError e` stores `e` and sets the stage to error
exactly when `e` is a non-null, non-empty string; when `e` is null (or
the empty string) the stage is forced to idle regardless of the prior
stage, never restoring it. -/
theorem setError_stage_truthiness (s : AppState) (e : Option JStr) :
    ((setError e s).stage = AppStage.error ↔ optTruthy e = true)
    ∧ (e = none → (setError e s).stage = AppStage.idle)
    ∧ (setError e s).error = e := by
  refine ⟨?_, fun he => ?_, rfl⟩
  · show (if optTruthy e then AppStage.error else AppStage.idle) = AppStage.error
      ↔ optTruthy e = true
    cases h : optTruthy e <;> simp [h]
  · subst he; rfl

/-- Witness for C9 amended: clearing the error from a completed-looking
state forces the stage back to idle. -/
theorem setError_stage_truthiness_witness :
    (setError none initialState).stage = AppStage.idle :=
  (setError_stage_truthiness initialState none).2.1 rfl

/-- C10: with `n ≥ 1` panels and a selected panel `1 ≤ p ≤ n`, both
navigation directions yield a selection clamped inside `[1, n]`, the
no-selection case is a no-op, and the modal's lookup index
`selectedPanel - 1` stays in bounds before and after navigating. -/
theorem navigatePanel_clamps (n p : Int) (hn : 1 ≤ n) (hp1 : 1 ≤ p) (hpn : p ≤ n) :
    (∀ d, ∃ q, navigatePanel n (some p) d = some q
      ∧ 1 ≤ q ∧ q ≤ n ∧ 0 ≤ q - 1 ∧ q - 1 < n)
    ∧ (∀ d, navigatePanel n none d = none)
    ∧ 0 ≤ p - 1 ∧ p - 1 < n := by
  refine ⟨fun d => ?_, fun d => rfl, by omega, by omega⟩
  cases d with
  | prev =>
    have hm1 : 1 ≤ max 1 (p - 1) := le_max_left _ _
    have hm2 : max 1 (p - 1) ≤ n := max_le hn (by omega)
    exact ⟨max 1 (p - 1), rfl, hm1, hm2, by omega, by omega⟩
  | next =>
    have hm1 : 1 ≤ min n (p + 1) := le_min hn (by omega)
    have hm2 : min n (p + 1) ≤ n := min_le_left _ _
    exact ⟨min n (p + 1), rfl, hm1, hm2, by omega, by omega⟩

/-- Witness for C10: navigating forward from panel 2 of 3 stays within
bounds. -/
theorem navigatePanel_clamps_witness :
    ∃ q, navigatePanel 3 (some 2) NavDirection.next = some q
      ∧ 1 ≤ q ∧ q ≤ 3 ∧ 0 ≤ q - 1 ∧ q - 1 < 3 :=
  (navigatePanel_clamps 3 2 (by decide) (by decide) (by decide)).1 NavDirection.next

/-- C4: extraction of a valid PDF with a text layer yields a non-empty
full text and a preview that is a prefix of it no longer than 500
characters; on the client, when the server supplies no preview, the
Dropzone computes the first 500 characters plus an ellipsis, and the
store's `setExtractedText` falls back to the first 500 characters. -/
theorem extraction_and_preview (d : PDFDocument) (h : hasTextLayer d) :
    (∃ r, extractPDF d = Except.ok r
      ∧ r.full_text ≠ []
      ∧ ∃ pv, r.text_preview = some pv ∧ pv <+: r.full_text ∧ pv.length ≤ 500)
    ∧ (∀ t : JStr, dropzonePreview ⟨t, none⟩ = t.take 500 ++ ("...").data)
    ∧ (∀ (s : AppState) (t : JStr),
        (setExtractedText t none s).textPreview = t.take 500) := by
  obtain ⟨hv, t, ht, hne⟩ := h
  refine ⟨⟨⟨t, some (t.take 500)⟩, ?_, hne, t.take 500, rfl,
    ⟨t.drop 500, List.take_append_drop _ _⟩, List.length_take_le _ _⟩,
    fun t2 => rfl, fun s t2 => rfl⟩
  simp [extractPDF, ht, hv, List.isEmpty_iff, hne]

/-- Witness for C4: extracting a concrete valid PDF. -/
theorem extraction_and_preview_witness :
    ∃ r, extractPDF demoPDF = Except.ok r
      ∧ r.full_text ≠ []
      ∧ ∃ pv, r.text_preview = some pv ∧ pv <+: r.full_text ∧ pv.length ≤ 500 :=
  (extraction_and_preview demoPDF ⟨rfl, ("hello").data, rfl, by decide⟩).1

/-- C8: the Config response exposes, per provider, only the name, the
model list, the enabled flag and a boolean credential-presence bit;
replacing every secret credential value by any other value of the same
presence leaves the response unchanged, so no secret value reaches the
client. -/
theorem config_reveals_only_presence (cfg : List BackendProvider)
    (f : Option JStr → Option JStr) (hf : ∀ o, (f o).isSome = o.isSome) :
    configEndpoint (cfg.map (rekeyProvider f)) = configEndpoint cfg
    ∧ ∀ p : BackendProvider,
        exposeProvider p = ⟨p.name, p.models, p.api_key.isSome, p.enabled⟩ := by
  refine ⟨?_, fun p => rfl⟩
  unfold configEndpoint
  congr 1
  rw [List.map_map]
  apply List.map_congr_left
  intro p hp
  simp [Function.comp, exposeProvider, rekeyProvider, hf]

/-- Witness for C8: rewriting the secrets of a concrete configuration
leaves the Config response identical. -/
theorem config_reveals_only_presence_witness :
    configEndpoint (demoCfg.map (rekeyProvider demoRekey)) = configEndpoint demoCfg :=
  (config_reveals_only_presence demoCfg demoRekey (fun o => by cases o <;> rfl)).1

/-- Counterexample for C5: a generation run in which the storyboard
call throws an `Error` whose message is the empty string ends with the
stage forced to idle by `setError`'s truthiness check — neither the
completed state with a manga nor the error state the claim promises. -/
theorem handleGenerate_empty_message_cex :
    (handleGenerate demoReadyState (Except.error (some []))
        (Except.ok demoMangaR)).stage = AppStage.idle
    ∧ (handleGenerate demoReadyState (Except.error (some []))
        (Except.ok demoMangaR)).stage ≠ AppStage.completed
    ∧ (handleGenerate demoReadyState (Except.error (some []))
        (Except.ok demoMangaR)).stage ≠ AppStage.error := by
  refine ⟨rfl, ?_, ?_⟩ <;> decide

/-- C5 amended: provided every thrown failure carries a non-empty
message (as every non-`Error` throw does via the fallback text), each
run of `handleGenerate` ends either in the completed stage with the
manga result set, or in the error stage carrying a message with the
manga field untouched by the run. -/
theorem handleGenerate_dichotomy (s : AppState)
    (sbR : Except (Option JStr) StoryboardResponse) (mgR : Except (Option JStr) Manga)
    (hsb : ∀ t, sbR = Except.error t → thrownMessage t ≠ [])
    (hmg : ∀ t, mgR = Except.error t → thrownMessage t ≠ []) :
    ((handleGenerate s sbR mgR).stage = AppStage.completed
      ∧ ∃ m, mgR = Except.ok m ∧ (handleGenerate s sbR mgR).manga = some m)
    ∨ ((handleGenerate s sbR mgR).stage = AppStage.error
      ∧ (handleGenerate s sbR mgR).error ≠ none
      ∧ (handleGenerate s sbR mgR).manga = s.manga) := by
  unfold handleGenerate
  by_cases he : s.extractedText = []
  · rw [if_pos he]
    right
    exact ⟨rfl, by simp [setError], rfl⟩
  · rw [if_neg he]
    cases sbR with
    | error t =>
      have hne := hsb t rfl
      right
      refine ⟨?_, by simp [setError], rfl⟩
      show (if optTruthy (some (thrownMessage t)) then AppStage.error else AppStage.idle)
        = AppStage.error
      have htr : optTruthy (some (thrownMessage t)) = true := by
        simp [optTruthy, List.isEmpty_iff, hne]
      rw [htr]
      rfl
    | ok sb =>
      cases mgR with
      | error t =>
        have hne := hmg t rfl
        right
        refine ⟨?_, by simp [setError], rfl⟩
        show (if optTruthy (some (thrownMessage t)) then AppStage.error else AppStage.idle)
          = AppStage.error
        have htr : optTruthy (some (thrownMessage t)) = true := by
          simp [optTruthy, List.isEmpty_iff, hne]
        rw [htr]
        rfl
      | ok m =>
        left
        exact ⟨rfl, m, rfl, rfl⟩

/-- Witness for C5 amended: a run whose API calls both succeed ends
completed with the manga set. -/
theorem handleGenerate_dichotomy_witness :
    ((handleGenerate demoReadyState (Except.ok demoStoryboardR)
        (Except.ok demoMangaR)).stage = AppStage.completed
      ∧ ∃ m, (Except.ok demoMangaR : Except (Option JStr) Manga) = Except.ok m
        ∧ (handleGenerate demoReadyState (Except.ok demoStoryboardR)
            (Except.ok demoMangaR)).manga = some m)
    ∨ ((handleGenerate demoReadyState (Except.ok demoStoryboardR)
        (Except.ok demoMangaR)).stage = AppStage.error
      ∧ (handleGenerate demoReadyState (Except.ok demoStoryboardR)
          (Except.ok demoMangaR)).error ≠ none
      ∧ (handleGenerate demoReadyState (Except.ok demoStoryboardR)
          (Except.ok demoMangaR)).manga = demoReadyState.manga) :=
  handleGenerate_dichotomy demoReadyState (Except.ok demoStoryboardR)
    (Except.ok demoMangaR) (fun _ h => nomatch h) (fun _ h => nomatch h)

/-- Sums of longer prefixes of a list of counts never decrease. -/
theorem sum_take_mono (l : List Nat) {i j : Nat} (hij : i ≤ j) :
    (l.take i).sum ≤ (l.take j).sum := by
  have h : l.take j = l.take i ++ (l.drop i).take (j - i) := by
    rw [← List.take_add]
    congr 1
    omega

  rw [h, List.sum_append]
  exact Nat.le_add_right _ _

/-- The Batcher partitions the storyboard: concatenating the batches
gives back the panel list. -/
theorem makeBatches_flatten (ps : List Panel) : (makeBatches ps).flatten = ps := by
  induction ps using makeBatches.induct with
  | case1 =>
    rw [makeBatches.eq_def]
    simp
  | case2 ps h ih =>
    rw [makeBatches.eq_def]
    rw [dif_neg h]
    rw [List.flatten_cons, ih, List.take_append_drop]

/-- Batch sizes of a storyboard sum to its panel count. -/
theorem sum_batchSizes (ps : List Panel) : (batchSizes ps).sum = ps.length := by
  unfold batchSizes
  rw [← List.length_flatten, makeBatches_flatten]

/-- C7: for a six-panel job, every progress snapshot reports
`total_panels = 6`, the `current_panel` value observed at a later poll
is never smaller than at an earlier one, and therefore every
nondecreasing sequence of poll times observes a nondecreasing sequence
of `current_panel` values. -/
theorem progressAt_total_and_monotone (ps : List Panel) (h6 : ps.length = 6) :
    (∀ t, (progressAt ps t).total_panels = 6)
    ∧ (∀ t u, t ≤ u →
        (progressAt ps t).current_panel ≤ (progressAt ps u).current_panel)
    ∧ (∀ polls : List Nat, polls.Chain' (· ≤ ·) →
        (polls.map fun t => (progressAt ps t).current_panel).Chain' (· ≤ ·)) := by
  have hmono : ∀ t u, t ≤ u →
      (progressAt ps t).current_panel ≤ (progressAt ps u).current_panel := by
    intro t u htu
    unfold progressAt panelsDone
    by_cases hti : t ≤ (batchSizes ps).length <;>
      by_cases hui : u ≤ (batchSizes ps).length
    · rw [if_pos hti, if_pos hui]
      exact sum_take_mono _ htu
    · rw [if_pos hti, if_neg hui]
      show ((batchSizes ps).take t).sum ≤ ps.length
      calc ((batchSizes ps).take t).sum
          ≤ ((batchSizes ps).take (batchSizes ps).length).sum := sum_take_mono _ hti
        _ = (batchSizes ps).sum := by rw [List.take_length]
        _ = ps.length := sum_batchSizes ps
    · omega
    · rw [if_neg hti, if_neg hui]
  refine ⟨?_, hmono, ?_⟩
  · intro t
    unfold progressAt
    split <;> exact h6
  · intro polls hc
    rw [List.chain'_map]
    exact hc.imp fun a b hab => hmono a b hab

/-- Witness for C7: concrete snapshots of the six-panel demo job. -/
theorem progressAt_total_and_monotone_witness :
    (progressAt demoPanels6 1).total_panels = 6
    ∧ (progressAt demoPanels6 0).current_panel ≤ (progressAt demoPanels6 2).current_panel :=
  ⟨(progressAt_total_and_monotone demoPanels6 rfl).1 1,
   (progressAt_total_and_monotone demoPanels6 rfl).2.1 0 2 (by decide)⟩

/-- When a batch succeeds (directly or on its retry), rendering proceeds
to the remaining batches, accumulating its call log in front. -/
theorem renderAll_cons_ok (ok : List Panel → Nat → Bool) (img : Panel → JStr)
    (p : List Panel) (rest : List (List Panel))
    (hok : ok p 0 = true ∨ ok p 1 = true) :
    (renderAll ok img (p :: rest)).1 = (renderBatch ok img p).1 ++ (renderAll ok img rest).1
    ∧ (renderAll ok img (p :: rest)).2 =
        (match (renderAll ok img rest).2 with
          | Except.error e => Except.error e
          | Except.ok more => Except.ok (p.map (renderPanel img) ++ more)) := by
  rcases hrest : renderAll ok img rest with ⟨lg, r⟩
  cases h0 : ok p 0 with
  | true =>
    cases r <;> simp [renderAll, renderBatch, h0, hrest]
  | false =>
    have h1 : ok p 1 = true := by
      rcases hok with h | h
      · rw [h0] at h
        exact absurd h (by decide)
      · exact h
    cases r <;> simp [renderAll, renderBatch, h0, h1, hrest]

/-- C3: when every earlier batch succeeds within its single retry and
batch `b`'s image call fails on both attempts, the call log shows `b`
was called exactly twice with the same inputs (attempts 0 and 1) and
nothing was called after it, the rendering stage returns `RenderError`
carrying `b`'s panel numbers, and the whole generation produces that
error and no Manga artifact — every already-rendered partial result is
discarded. -/
theorem renderAll_retry_then_fail (ok : List Panel → Nat → Bool) (img : Panel → JStr)
    (pre post : List (List Panel)) (b : List Panel)
    (hpre : ∀ b2 ∈ pre, ok b2 0 = true ∨ ok b2 1 = true)
    (h0 : ok b 0 = false) (h1 : ok b 1 = false) :
    (renderAll ok img (pre ++ b :: post)).2
        = Except.error (MangaError.renderError (b.map Panel.panel_number))
    ∧ (renderAll ok img (pre ++ b :: post)).1
        = (renderAll ok img pre).1 ++ [(b, 0), (b, 1)]
    ∧ ∀ title, generateFromBatches ok img title (pre ++ b :: post)
        = Except.error (MangaError.renderError (b.map Panel.panel_number)) := by
  have key : (renderAll ok img (pre ++ b :: post)).2
        = Except.error (MangaError.renderError (b.map Panel.panel_number))
      ∧ (renderAll ok img (pre ++ b :: post)).1
        = (renderAll ok img pre).1 ++ [(b, 0), (b, 1)] := by
    induction pre with
    | nil =>
      constructor <;> simp [renderAll, renderBatch, h0, h1]
    | cons p pre2 ih =>
      have hp := hpre p (List.mem_cons_self p pre2)
      obtain ⟨ih2, ih1⟩ := ih (fun b2 hb2 => hpre b2 (List.mem_cons_of_mem p hb2))
      rw [List.cons_append]
      obtain ⟨ha1, ha2⟩ := renderAll_cons_ok ok img p (pre2 ++ b :: post) hp
      obtain ⟨hb1, _⟩ := renderAll_cons_ok ok img p pre2 hp
      constructor
      · rw [ha2, ih2]
      · rw [ha1, ih1, hb1, List.append_assoc]
  refine ⟨key.1, key.2, fun title => ?_⟩
  unfold generateFromBatches
  rw [key.1]

/-- Witness for C3: under the demo oracle the batch `[demoPanelB]`
fails twice after the batch `[demoPanelA]` has succeeded, the log shows
the two attempts on the same inputs, and generation yields the
`RenderError` naming panel 2. -/
theorem renderAll_retry_then_fail_witness :
    (renderAll demoOk demoImg ([[demoPanelA]] ++ [demoPanelB] :: [])).2
        = Except.error (MangaError.renderError ([demoPanelB].map Panel.panel_number))
    ∧ (renderAll demoOk demoImg ([[demoPanelA]] ++ [demoPanelB] :: [])).1
        = (renderAll demoOk demoImg [[demoPanelA]]).1 ++ [([demoPanelB], 0), ([demoPanelB], 1)]
    ∧ ∀ title, generateFromBatches demoOk demoImg title ([[demoPanelA]] ++ [demoPanelB] :: [])
        = Except.error (MangaError.renderError ([demoPanelB].map Panel.panel_number)) :=
  renderAll_retry_then_fail demoOk demoImg [[demoPanelA]] [] [demoPanelB]
    (fun b2 hb2 => by
      rw [List.mem_singleton] at hb2
      subst hb2
      exact Or.inl (by decide))
    (by decide) (by decide)

/-- C1: whenever composition produces a final Manga, its panel sequence
carries the panel numbers exactly `1..N` in strictly increasing order
with no gaps, the panel at position `i - 1` has `panel_number i` for
every in-range `i` (the invariant the reader's modal indexing
`manga.panels[selectedPanel - 1]` relies on), and any reordering of the
rendered panels — whatever order the Planner emitted them in — composes
to the very same Manga. -/
theorem composeManga_sorted_contiguous (title : JStr) (rs : List RenderedPanel) (m : Manga)
    (h : composeManga title rs = Except.ok m) :
    m.panels.map RenderedPanel.panel_number = List.range' 1 m.panels.length
    ∧ m.panels.Pairwise panelLT
    ∧ (∀ i, 1 ≤ i → ∀ hi : i - 1 < m.panels.length,
        (m.panels.get ⟨i - 1, hi⟩).panel_number = i)
    ∧ (∀ rs2 : List RenderedPanel, rs2.Perm rs → composeManga title rs2 = Except.ok m) := by
  unfold composeManga at h
  split at h
  case isFalse hcheck => exact absurd h (by simp)
  case isTrue hcheck =>
  injection h with h
  subst h
  have hlen : (sortPanels rs).length = rs.length := List.length_insertionSort _ _
  have hmap : (sortPanels rs).map RenderedPanel.panel_number
      = List.range' 1 (sortPanels rs).length := by
    rw [hlen]
    exact hcheck
  have hplt : (sortPanels rs).Pairwise panelLT := by
    have hpw : List.Pairwise (· < ·) (List.range' 1 rs.length) :=
      List.pairwise_lt_range' 1 rs.length
    rw [← hcheck] at hpw
    have hplt2 : (sortPanels rs).Pairwise
        (fun a b => a.panel_number < b.panel_number) :=
      List.pairwise_map.mp hpw
    exact hplt2
  refine ⟨hmap, hplt, ?_, ?_⟩
  · intro i hi1 hi
    have hb : i - 1 < ((sortPanels rs).map RenderedPanel.panel_number).length := by
      simpa using hi
    have hr : i - 1 < (List.range' 1 (sortPanels rs).length).length := by
      simpa using hi
    have e1 := List.getElem_of_eq hmap hb
    rw [List.getElem_map, List.getElem_range'] at e1
    rw [List.get_eq_getElem]
    rw [e1]
    omega
  · intro rs2 hperm
    have hlen2 : rs2.length = rs.length := hperm.length_eq
    have hp : (sortPanels rs2).Perm (sortPanels rs) :=
      (List.perm_insertionSort panelLE rs2).trans
        (hperm.trans (List.perm_insertionSort panelLE rs).symm)
    have hw2 : (sortPanels rs2).Pairwise panelLE :=
      List.sorted_insertionSort panelLE rs2
    have hnd : (List.map RenderedPanel.panel_number (sortPanels rs2)).Nodup := by
      have hpm : (List.map RenderedPanel.panel_number (sortPanels rs2)).Perm
          (List.map RenderedPanel.panel_number (sortPanels rs)) := hp.map _
      refine hpm.nodup_iff.mpr ?_
      rw [hcheck]
      exact List.nodup_range' 1 rs.length
    have hne2 : (sortPanels rs2).Pairwise
        (fun a b => a.panel_number ≠ b.panel_number) :=
      List.pairwise_map.mp hnd
    have hs2 : (sortPanels rs2).Pairwise panelLT :=
      (hw2.and hne2).imp fun hab => Nat.lt_of_le_of_ne hab.1 hab.2
    have hsorteq : sortPanels rs2 = sortPanels rs :=
      List.eq_of_perm_of_sorted hp hs2 hplt
    unfold composeManga
    rw [hsorteq, hlen2, if_pos hcheck]

/-- Witness for C1: composing two out-of-order rendered panels yields a
Manga whose panel numbers are exactly the range `1..2`. -/
theorem composeManga_sorted_contiguous_witness :
    composeManga [] demoRendered = Except.ok demoComposedManga
    ∧ demoComposedManga.panels.map RenderedPanel.panel_number
        = List.range' 1 demoComposedManga.panels.length :=
  ⟨rfl, (composeManga_sorted_contiguous [] demoRendered demoComposedManga rfl).1⟩

end Prism
